import Mathlib

/-!
Shallow embedding of the scheduling and state-tracking core of
`reddit_bot_safe.py` (a rate-limited posting agent), together with theorems
about its counter invariants, action selection, content selection,
engagement handling and retry/backoff behaviour.

Modelling conventions:
* machine state (`BotState`) mirrors the persisted JSON dict from the source;
* the external inputs of each tick (clock, inbox contents, random draws, shuffle
  results, submission success) are collected in an `Env` oracle record;
  `random.shuffle` becomes an env-supplied function constrained to be a
  permutation in the theorems, `random.choice l` becomes indexing by an
  env-supplied index modulo `l.length`;
* timestamps are integers (seconds); `datetime` arithmetic on day windows
  becomes `days * 86400`;
* external calls that can fail (post submission after backoff, mention fetch
  after backoff) are modelled by success/failure flags in `Env`, and the
  standalone backoff wrapper is modelled separately as `with_backoff`;
* observable side effects of a tick (engaging a mention, submitting a post,
  saving the state file) are returned as a list of `Ev` events.
-/

namespace RedditBotSafe

/-! ## Configuration constants (from the USER CONFIG section of the source) -/

def IMAGE_RECENCY_DAYS : Int := 14
def TEXT_REPEAT_DAYS : Int := 7

def NO_POST_START_HOUR : Nat := 23
def NO_POST_END_HOUR : Nat := 7

def MAX_POSTS_PER_DAY : Nat := 4
def MAX_POSTS_PER_HOUR : Nat := 2

def MAX_IMG_GMGN_PER_DAY : Nat := 2
def MAX_SHORT_LINK_PER_DAY : Nat := 2
def MAX_GMGN_LONG_PER_DAY : Nat := 1

def GM_SHORT : List String := ["GM ☀️", "GM ✨", "GM 🌞", "GM 🌿", "GM 👋"]
def GN_SHORT_BASE : List String := ["GN", "Gn", "gn", "Good night", "Night"]
def RANDOM_GN_EMOJIS : List String := ["🌙", "✨", "⭐", "💤", "🌌", "🫶", "💫", "😴", "🌠"]

def GM_LONG : List String :=
  ["GM 🌱 Wishing you a day full of creativity and light.",
   "GM ✨ New day, new brushstrokes.",
   "GM 🌊 Let\x27s dive into imagination today."]

def GN_LONG : List String :=
  ["Good night 🌙💫 May your dreams be as colorful as art.",
   "GN 🌌 See you in tomorrow’s stories.",
   "Resting the canvas for tomorrow’s colors. GN ✨"]

def title_choices : List String :=
  ["Small art drop ✨",
   "Sharing a piece from Loufi’s Art 🎨",
   "A little color for your day 🌈",
   "Art moment ✨",
   "Color break 🎨"]

/-! ## Python list helpers: `random.choice(l)` with an oracle index, and the
slice `l[-n:]` used for bounded histories -/

def pyChoice (l : List String) (i : Nat) : String := l.getD (i % l.length) ""

def pyLast (n : Nat) (l : List α) : List α := l.drop (l.length - n)

/-! ## Data model (the persisted state dict) -/

structure DailyCounters where
  date : String
  posts : Nat
deriving DecidableEq, Repr

structure HourlyCounters where
  key : String
  posts : Nat
deriving DecidableEq, Repr

/-- The `pertype` dict; its three keys are fixed by `_pertype_zero`. -/
structure PerType where
  post_img_gmgn_short : Nat
  post_gmgn_long : Nat
  post_short_link : Nat
deriving DecidableEq, Repr

/-- One record of `state["history"]`: `{"text": ..., "ts": ..., "media"?: ...}`. -/
structure PostRec where
  text : String
  ts : Int
  media : Option String
deriving DecidableEq, Repr

structure BotState where
  history : List PostRec
  daily : DailyCounters
  hourly : HourlyCounters
  processed_mentions : List String
  pertype : PerType
deriving DecidableEq, Repr

def _pertype_zero : PerType := ⟨0, 0, 0⟩

/-- The three action kinds the scheduler can commit to (the source uses the
corresponding strings; `"skip"` is `Option.none` of this type). -/
inductive PAction where
  | post_img_gmgn_short
  | post_gmgn_long
  | post_short_link
deriving DecidableEq, Repr

/-- Observable side effects of one tick. -/
inductive Ev where
  | engaged (mid : String)
  | submitted (a : PAction)
  | saved
deriving DecidableEq, Repr

/-- Per-tick oracle: clock values, external-call results and random draws. -/
structure Env where
  nowDate : String
  nowHour : Nat
  nowUtc : Int
  fetchOk : Bool
  inbox : List String
  shuffleMentions : List String → List String
  engageKind : Option String
  subs : List String
  subIdx : Nat
  titleIdx : Nat
  imagePool : List String
  shuffleImages : List String → List String
  imageFallbackIdx : Nat
  gmIdx : Nat
  gnIdx : Nat
  gnEmojiIdx : Nat
  gnWithEmoji : Bool
  shuffleTexts : List String → List String
  textFallbackIdx : Nat
  linkPools : List String
  shuffleLinks : List String → List String
  moreIdx : Nat
  submitOk : Bool

/-! ## State load and reset -/

/-- Parsed state file content: `none` field = key absent (filled by
`setdefault` in `load_state`). -/
structure RawState where
  history : Option (List PostRec)
  daily : Option DailyCounters
  hourly : Option HourlyCounters
  processed_mentions : Option (List String)
  pertype : Option PerType

/-- Model of `load_state`: argument `none` = state file absent, `some none`
= file present but reading or JSON parsing raised, `some (some raw)` =
parsed. -/
def load_state : Option (Option RawState) → BotState
  | some (some raw) =>
    { history := raw.history.getD []
      daily := raw.daily.getD ⟨"", 0⟩
      hourly := raw.hourly.getD ⟨"", 0⟩
      processed_mentions := raw.processed_mentions.getD []
      pertype := raw.pertype.getD _pertype_zero }
  | some none =>
    { history := [], daily := ⟨"", 0⟩, hourly := ⟨"", 0⟩
      processed_mentions := [], pertype := _pertype_zero }
  | none =>
    { history := [], daily := ⟨"", 0⟩, hourly := ⟨"", 0⟩
      processed_mentions := [], pertype := _pertype_zero }

def reset_daily_if_needed (s : BotState) (today : String) : BotState :=
  if s.daily.date ≠ today then
    { s with daily := ⟨today, 0⟩, pertype := _pertype_zero }
  else s

/-- The hourly key string: ISO date, underscore, zero-padded hour. -/
def hour_key (date : String) (h : Nat) : String :=
  date ++ "_" ++ (if h < 10 then "0" ++ toString h else toString h)

def reset_hourly_if_needed (s : BotState) (key : String) : BotState :=
  if s.hourly.key ≠ key then { s with hourly := ⟨key, 0⟩ } else s

/-! ## History bookkeeping and recency lookups -/

/-- The record built by `remember_post` (the `if media:` truthiness test
drops an empty media string). -/
def mk_hist_rec (text : String) (media : Option String) (nowUtc : Int) : PostRec :=
  { text := text, ts := nowUtc
    media := match media with
             | some m => if m = "" then none else some m
             | none => none }

def remember_post (s : BotState) (text : String) (media : Option String)
    (nowUtc : Int) : BotState :=
  { s with history := pyLast 400 (s.history ++ [mk_hist_rec text media nowUtc]) }

def recently_used_text (s : BotState) (text : String) (nowUtc : Int)
    (days : Int) : Bool :=
  s.history.reverse.any (fun r =>
    decide (nowUtc - days * 86400 ≤ r.ts) && (r.text.trim == text.trim))

def recently_used_media (s : BotState) (path : String) (nowUtc : Int)
    (days : Int) : Bool :=
  s.history.reverse.any (fun r =>
    match r.media with
    | some mp => decide (nowUtc - days * 86400 ≤ r.ts) && (mp == path)
    | none => false)

/-- Model of `pick_fresh_image`; `env.imagePool` models the result of
`list_local_images(ASSETS_DIR)` (an external collaborator). -/
def pick_fresh_image (env : Env) (s : BotState) : Option String :=
  if env.imagePool.isEmpty then none
  else
    let shuffled := env.shuffleImages env.imagePool
    match shuffled.find? (fun img =>
        !recently_used_media s img env.nowUtc IMAGE_RECENCY_DAYS) with
    | some img => some img
    | none => some (pyChoice shuffled env.imageFallbackIdx)

/-! ## Backoff wrapper -/

/-- Sleep after the `tries`-th failure: `min(4.0 * 2 ** (tries - 1), 60.0)`. -/
def backoff_sleep (tries : Nat) : Nat := min (4 * 2 ^ (tries - 1)) 60

/-- The retry loop of `with_backoff`. `fn` receives the 0-based attempt
index; `remaining` counts how many further failures are tolerated before the
final failure re-raises (the source raises once `tries >= 5`, i.e. after the
fifth failed attempt, having slept once more first). Returns the sleep trace
and the final outcome. -/
def backoff_run {E A : Type} (fn : Nat → Except E A) :
    Nat → Nat → List Nat × Except E A
  | tries, remaining =>
    match fn tries with
    | Except.ok a => ([], Except.ok a)
    | Except.error e =>
      let s := backoff_sleep (tries + 1)
      match remaining with
      | 0 => ([s], Except.error e)
      | r + 1 =>
        let rest := backoff_run fn (tries + 1) r
        (s :: rest.1, rest.2)

/-- The wrapper `with_backoff(fn)` applied to one call: starts with
`tries = 0` and raises after the fifth failed attempt. -/
def with_backoff {E A : Type} (fn : Nat → Except E A) : List Nat × Except E A :=
  backoff_run fn 0 4

/-! ## Clock windows and content pickers -/

def in_time_window (h : Nat) (window : String) : Bool :=
  if window = "morning" then decide (7 ≤ h ∧ h < 11)
  else if window = "evening" then decide (19 ≤ h ∧ h < 23)
  else if window = "midday" then decide (11 ≤ h ∧ h < 19)
  else false

def is_quiet_hours (h : Nat) : Bool :=
  if NO_POST_START_HOUR ≤ NO_POST_END_HOUR then
    decide (NO_POST_START_HOUR ≤ h ∧ h < NO_POST_END_HOUR)
  else
    decide (NO_POST_START_HOUR ≤ h) || decide (h < NO_POST_END_HOUR)

def pick_without_recent (env : Env) (s : BotState) (pool : List String) : String :=
  let shuffled := env.shuffleTexts pool
  match shuffled.find? (fun t =>
      !recently_used_text s t env.nowUtc TEXT_REPEAT_DAYS) with
  | some t => t
  | none => pyChoice pool env.textFallbackIdx

def build_gm_short (env : Env) : String := pyChoice GM_SHORT env.gmIdx

def build_gn_short (env : Env) : String :=
  let base := pyChoice GN_SHORT_BASE env.gnIdx
  if env.gnWithEmoji then base ++ " " ++ pyChoice RANDOM_GN_EMOJIS env.gnEmojiIdx
  else base

def pick_gmgn_text (env : Env) (s : BotState) (long : Bool) : String :=
  if in_time_window env.nowHour ("morning") then
    if long then pick_without_recent env s GM_LONG else build_gm_short env
  else if in_time_window env.nowHour ("evening") then
    if long then pick_without_recent env s GN_LONG else build_gn_short env
  else build_gm_short env

def pick_link_short (env : Env) (s : BotState) : Option String :=
  let pools := env.shuffleLinks env.linkPools
  match pools.find? (fun u =>
      !recently_used_text s u env.nowUtc TEXT_REPEAT_DAYS) with
  | some u => some u
  | none => pools.head?

/-! ## Action selection and caps -/

def choose_action_with_caps (h : Nat) (pertype : PerType) : Option PAction :=
  if 7 ≤ h ∧ h < 11 then
    if pertype.post_img_gmgn_short < MAX_IMG_GMGN_PER_DAY ∧
        pertype.post_img_gmgn_short = 0 then
      some PAction.post_img_gmgn_short
    else if pertype.post_short_link < MAX_SHORT_LINK_PER_DAY then
      some PAction.post_short_link
    else if pertype.post_gmgn_long < MAX_GMGN_LONG_PER_DAY then
      some PAction.post_gmgn_long
    else none
  else if 11 ≤ h ∧ h < 19 then
    if pertype.post_short_link < MAX_SHORT_LINK_PER_DAY then
      some PAction.post_short_link
    else if pertype.post_gmgn_long < MAX_GMGN_LONG_PER_DAY then
      some PAction.post_gmgn_long
    else none
  else if 19 ≤ h ∧ h < 23 then
    if pertype.post_img_gmgn_short < MAX_IMG_GMGN_PER_DAY then
      some PAction.post_img_gmgn_short
    else if pertype.post_short_link < MAX_SHORT_LINK_PER_DAY then
      some PAction.post_short_link
    else if pertype.post_gmgn_long < MAX_GMGN_LONG_PER_DAY then
      some PAction.post_gmgn_long
    else none
  else
    if pertype.post_short_link < MAX_SHORT_LINK_PER_DAY then
      some PAction.post_short_link
    else if pertype.post_gmgn_long < MAX_GMGN_LONG_PER_DAY then
      some PAction.post_gmgn_long
    else none

def can_post (s : BotState) : Bool :=
  decide (s.daily.posts < MAX_POSTS_PER_DAY) &&
  decide (s.hourly.posts < MAX_POSTS_PER_HOUR)

/-! ## Engagement phase (opt-in mentions) -/

/-- Model of `fetch_unprocessed_mentions`: filter the fetched inbox page
against the processed-mention set; `env.inbox` models the items (by
fullname) returned by the inbox mentions listing. -/
def fetch_unprocessed_mentions (env : Env) (s : BotState) : List String :=
  env.inbox.filter (fun mid => !s.processed_mentions.contains mid)

/-- Appending one mention id to the processed-mention list followed by the
last-500 truncation. -/
def engage_append (s : BotState) (mid : String) : BotState :=
  { s with processed_mentions := pyLast 500 (s.processed_mentions ++ [mid]) }

/-- The mention block of `do_one_action`. `none` means the block fell
through to the posting logic (fetch raised after backoff, no unprocessed
mention, or `engage_for_mention` returned `None`); `some` carries the
mutated state and the events of the tick for the `"engaged"` early return. -/
def engagement_phase (env : Env) (s : BotState) : Option (BotState × List Ev) :=
  if env.fetchOk then
    let mentions := env.shuffleMentions (fetch_unprocessed_mentions env s)
    match mentions with
    | [] => none
    | item :: _ =>
      match env.engageKind with
      | some _ => some (engage_append s item, [Ev.engaged item, Ev.saved])
      | none => none
  else none

/-! ## Posting preparation, execution and the tick -/

/-- The three sequential `if action == ...` preparation blocks of
`do_one_action` (image choice with downgrade, long-text preparation, link
preparation with its fallbacks). `none` models the early `return "skip"`;
`some (a, text, image, url)` carries the prepared action and payloads. -/
def prepare (env : Env) (s : BotState) (pertype : PerType) (a0 : PAction) :
    Option (PAction × Option String × Option String × Option String) :=
  let b1 : Option (PAction × Option String × Option String) :=
    if a0 = PAction.post_img_gmgn_short then
      let text := some (pick_gmgn_text env s false)
      match pick_fresh_image env s with
      | some img => some (a0, text, some img)
      | none =>
        if pertype.post_short_link < MAX_SHORT_LINK_PER_DAY then
          some (PAction.post_short_link, text, none)
        else if pertype.post_gmgn_long < MAX_GMGN_LONG_PER_DAY then
          some (PAction.post_gmgn_long, text, none)
        else none
    else some (a0, none, none)
  match b1 with
  | none => none
  | some (a1, text1, image) =>
    let b2 : Option (PAction × Option String) :=
      if a1 = PAction.post_gmgn_long then
        if pertype.post_gmgn_long ≥ MAX_GMGN_LONG_PER_DAY then
          if pertype.post_short_link < MAX_SHORT_LINK_PER_DAY then
            some (PAction.post_short_link, text1)
          else none
        else
          let body := pick_gmgn_text env s true
          let body := if env.linkPools ≠ [] then
              body ++ "\n\n—\nMore: " ++ pyChoice env.linkPools env.moreIdx
            else body
          some (a1, some body)
      else some (a1, text1)
    match b2 with
    | none => none
    | some (a2, text2) =>
      if a2 = PAction.post_short_link then
        if pertype.post_short_link ≥ MAX_SHORT_LINK_PER_DAY then
          if pertype.post_gmgn_long < MAX_GMGN_LONG_PER_DAY then
            some (PAction.post_gmgn_long, text2, image, none)
          else none
        else
          match pick_link_short env s with
          | some u => some (a2, text2, image, some u)
          | none =>
            -- no links configured: fallback to a long self-post, with no
            -- check of the long-post cap
            some (PAction.post_gmgn_long, some (pick_gmgn_text env s true),
                  image, none)
      else some (a2, text2, image, none)

def bump_pertype (p : PerType) (a : PAction) : PerType :=
  match a with
  | PAction.post_img_gmgn_short =>
    { p with post_img_gmgn_short := p.post_img_gmgn_short + 1 }
  | PAction.post_gmgn_long => { p with post_gmgn_long := p.post_gmgn_long + 1 }
  | PAction.post_short_link => { p with post_short_link := p.post_short_link + 1 }

/-- The counter updates after a successful submission (`action` is always a
key of `pertype`, so the `if action in state["pertype"]` guard always
holds). -/
def finalize (s : BotState) (a : PAction) : BotState :=
  { s with daily := { s.daily with posts := s.daily.posts + 1 }
           hourly := { s.hourly with posts := s.hourly.posts + 1 }
           pertype := bump_pertype s.pertype a }

/-- The `try`/`except` execution block: the `if`/`elif` chain over the
prepared action and payloads, with `env.submitOk` modelling whether the
backoff-wrapped `submit_*` call succeeded. -/
def execute (env : Env) (s : BotState) (title : String) (a : PAction)
    (text image url : Option String) : String × BotState × List Ev :=
  match a, image, text, url with
  | PAction.post_img_gmgn_short, some img, _, _ =>
    if env.submitOk then
      ("posted", finalize (remember_post s title (some img) env.nowUtc)
         PAction.post_img_gmgn_short,
       [Ev.submitted PAction.post_img_gmgn_short, Ev.saved])
    else ("post_failed", s, [])
  | PAction.post_gmgn_long, _, some t, _ =>
    if env.submitOk then
      ("posted", finalize (remember_post s t none env.nowUtc)
         PAction.post_gmgn_long,
       [Ev.submitted PAction.post_gmgn_long, Ev.saved])
    else ("post_failed", s, [])
  | PAction.post_short_link, _, _, some u =>
    if env.submitOk then
      ("posted", finalize (remember_post s u none env.nowUtc)
         PAction.post_short_link,
       [Ev.submitted PAction.post_short_link, Ev.saved])
    else ("post_failed", s, [])
  | _, _, _, _ => ("skip", s, [])

/-- The posting section of `do_one_action` (everything after the mention
block), acting on the state left by the daily/hourly resets. -/
def posting_phase (env : Env) (s : BotState) : String × BotState × List Ev :=
  if !can_post s || is_quiet_hours env.nowHour then ("skip", s, [])
  else
    match choose_action_with_caps env.nowHour s.pertype with
    | none => ("skip", s, [])
    | some a0 =>
      if env.subs.isEmpty then ("skip", s, [])
      else
        let title := pyChoice title_choices env.titleIdx
        match prepare env s s.pertype a0 with
        | none => ("skip", s, [])
        | some (a, text, image, url) => execute env s title a text image url

/-- One tick: resets, mention engagement, then posting. Returns the printed
status token, the final state, and the events of the tick. -/
def do_one_action (env : Env) (s : BotState) : String × BotState × List Ev :=
  let s1 := reset_daily_if_needed s env.nowDate
  let s2 := reset_hourly_if_needed s1 (hour_key env.nowDate env.nowHour)
  match engagement_phase env s2 with
  | some (s3, evs) => ("engaged", s3, evs)
  | none => posting_phase env s2

def run_ticks (envs : List Env) (s : BotState) : BotState :=
  envs.foldl (fun t e => (do_one_action e t).2.1) s

/-- The state after the two lazy counter resets at the top of a tick. -/
def tick_resets (env : Env) (s : BotState) : BotState :=
  reset_hourly_if_needed (reset_daily_if_needed s env.nowDate)
    (hour_key env.nowDate env.nowHour)

/-! ## Helper lemmas -/

lemma do_one_action_eq (env : Env) (s : BotState) :
    do_one_action env s =
      match engagement_phase env (tick_resets env s) with
      | some (s3, evs) => ("engaged", s3, evs)
      | none => posting_phase env (tick_resets env s) := rfl

lemma pyChoice_mem (l : List String) (i : Nat) (h : l ≠ []) : pyChoice l i ∈ l := by
  have hlen : 0 < l.length := List.length_pos.mpr h
  have hlt : i % l.length < l.length := Nat.mod_lt _ hlen
  rw [pyChoice, List.getD_eq_getElem?_getD, List.getElem?_eq_getElem hlt]
  exact List.getElem_mem hlt

lemma pyLast_length (n : Nat) (l : List α) : (pyLast n l).length = min l.length n := by
  simp [pyLast]
  omega

lemma pyLast_length_le (n : Nat) (l : List α) : (pyLast n l).length ≤ n := by
  rw [pyLast_length]
  omega

lemma pyLast_suffix (n : Nat) (l : List α) : (pyLast n l).IsSuffix l :=
  List.drop_suffix _ _

lemma tick_resets_history (env : Env) (s : BotState) :
    (tick_resets env s).history = s.history := by
  unfold tick_resets reset_hourly_if_needed reset_daily_if_needed
  split <;> split <;> rfl

lemma tick_resets_processed (env : Env) (s : BotState) :
    (tick_resets env s).processed_mentions = s.processed_mentions := by
  unfold tick_resets reset_hourly_if_needed reset_daily_if_needed
  split <;> split <;> rfl

lemma tick_resets_daily_posts_le (env : Env) (s : BotState) :
    (tick_resets env s).daily.posts ≤ s.daily.posts := by
  unfold tick_resets reset_hourly_if_needed reset_daily_if_needed
  split <;> split <;> simp

lemma tick_resets_hourly_posts_le (env : Env) (s : BotState) :
    (tick_resets env s).hourly.posts ≤ s.hourly.posts := by
  unfold tick_resets reset_hourly_if_needed reset_daily_if_needed
  split <;> split <;> simp

lemma tick_resets_of_match (env : Env) (s : BotState)
    (hd : s.daily.date = env.nowDate)
    (hh : s.hourly.key = hour_key env.nowDate env.nowHour) :
    tick_resets env s = s := by
  unfold tick_resets reset_hourly_if_needed reset_daily_if_needed
  simp [hd, hh]

lemma backoff_run_congr {E A : Type} (fn fn' : Nat → Except E A) :
    ∀ (r tries : Nat), (∀ i, tries ≤ i → i < tries + r + 1 → fn i = fn' i) →
      backoff_run fn tries r = backoff_run fn' tries r := by
  intro r
  induction r with
  | zero =>
    intro tries h
    rw [backoff_run, backoff_run, h tries le_rfl (by omega)]
  | succ r ih =>
    intro tries h
    rw [backoff_run, backoff_run, h tries le_rfl (by omega)]
    cases fn' tries with
    | ok a => rfl
    | error e =>
      have := ih (tries + 1) (fun i h1 h2 => h i (by omega) (by omega))
      simp only [this]

lemma execute_cases (env : Env) (s : BotState) (title : String) (a : PAction)
    (text image url : Option String) :
    execute env s title a text image url = ("skip", s, []) ∨
    execute env s title a text image url = ("post_failed", s, []) ∨
    ∃ t m, execute env s title a text image url =
      ("posted", finalize (remember_post s t m env.nowUtc) a,
       [Ev.submitted a, Ev.saved]) := by
  cases a <;> cases image <;> cases text <;> cases url <;>
    by_cases hok : env.submitOk <;>
    simp [execute, hok] <;> exact ⟨_, _, rfl⟩

lemma posting_cases (env : Env) (s : BotState) :
    posting_phase env s = ("skip", s, []) ∨
    posting_phase env s = ("post_failed", s, []) ∨
    (can_post s = true ∧ ∃ a t m, posting_phase env s =
      ("posted", finalize (remember_post s t m env.nowUtc) a,
       [Ev.submitted a, Ev.saved])) := by
  unfold posting_phase
  by_cases hcp : can_post s <;> by_cases hq : is_quiet_hours env.nowHour <;>
    simp [hcp, hq]
  cases hch : choose_action_with_caps env.nowHour s.pertype with
  | none => simp
  | some a0 =>
    simp only
    by_cases hsubs : env.subs = [] <;> simp [List.isEmpty_iff, hsubs]
    cases hprep : prepare env s s.pertype a0 with
    | none => simp
    | some res =>
      obtain ⟨a, text, image, url⟩ := res
      simp only
      rcases execute_cases env s (pyChoice title_choices env.titleIdx)
          a text image url with h | h | ⟨t, m, h⟩
      · exact Or.inl h
      · exact Or.inr (Or.inl h)
      · exact Or.inr (Or.inr ⟨a, t, m, h⟩)

lemma engagement_shape (env : Env) (s : BotState) (x : BotState × List Ev)
    (h : engagement_phase env s = some x) :
    ∃ mid, x = (engage_append s mid, [Ev.engaged mid, Ev.saved]) := by
  unfold engagement_phase at h
  split at h
  · cases hm : env.shuffleMentions (fetch_unprocessed_mentions env s) with
    | nil => rw [hm] at h; exact absurd h (by simp)
    | cons item rest =>
      rw [hm] at h
      cases hk : env.engageKind with
      | none => rw [hk] at h; exact absurd h (by simp)
      | some k =>
        rw [hk] at h
        simp only [Option.some.injEq] at h
        exact ⟨item, h.symm⟩
  · exact absurd h (by simp)

/-- Every tick is one of: an engagement (one mention id appended), a skip, a
failed post (state exactly as the resets left it), or a successful post
(history record appended and all three counter groups bumped), the last only
when `can_post` held after the resets. -/
lemma tick_cases (env : Env) (s : BotState) :
    (∃ mid, do_one_action env s =
       ("engaged", engage_append (tick_resets env s) mid,
        [Ev.engaged mid, Ev.saved])) ∨
    do_one_action env s = ("skip", tick_resets env s, []) ∨
    do_one_action env s = ("post_failed", tick_resets env s, []) ∨
    (can_post (tick_resets env s) = true ∧ ∃ a t m, do_one_action env s =
       ("posted",
        finalize (remember_post (tick_resets env s) t m env.nowUtc) a,
        [Ev.submitted a, Ev.saved])) := by
  rw [do_one_action_eq]
  cases he : engagement_phase env (tick_resets env s) with
  | some x =>
    obtain ⟨mid, hx⟩ := engagement_shape env (tick_resets env s) x he
    exact Or.inl ⟨mid, by simp [hx]⟩
  | none =>
    simp only
    rcases posting_cases env (tick_resets env s) with h | h | ⟨hcp, a, t, m, h⟩
    · exact Or.inr (Or.inl h)
    · exact Or.inr (Or.inr (Or.inl h))
    · exact Or.inr (Or.inr (Or.inr ⟨hcp, a, t, m, h⟩))

/-- A benign tick oracle for concrete instantiations: engagement disabled,
one subreddit configured, submissions succeed, all shuffles the identity
permutation, all random draws index 0, midday clock. -/
def envDefault : Env :=
  { nowDate := "2024-01-01", nowHour := 12, nowUtc := 1700000000
    fetchOk := false, inbox := [], shuffleMentions := id, engageKind := none
    subs := ["art"], subIdx := 0, titleIdx := 0
    imagePool := [], shuffleImages := id, imageFallbackIdx := 0
    gmIdx := 0, gnIdx := 0, gnEmojiIdx := 0, gnWithEmoji := false
    shuffleTexts := id, textFallbackIdx := 0
    linkPools := [], shuffleLinks := id, moreIdx := 0, submitOk := true }

/-- A fresh state whose date and hour key already match `envDefault`. -/
def stDefault : BotState :=
  { history := [], daily := ⟨"2024-01-01", 0⟩
    hourly := ⟨hour_key ("2024-01-01") 12, 0⟩
    processed_mentions := [], pertype := _pertype_zero }

/-! ## Claim theorems -/

/-- C3: for a wrapped call that fails on every attempt, `with_backoff`
produces exactly the sleep trace 4, 8, 16, 32, 60 — the first five terms of
`min(4 * 2^(attempt-1), 60)` — and then re-raises the last failure after the
fifth attempt; the wrapped call is never consulted beyond those five
attempts, so no further retry is executed. -/
theorem with_backoff_all_failures {E A : Type} (e : E) :
    with_backoff (fun _ => Except.error e) =
      ([4, 8, 16, 32, 60], (Except.error e : Except E A)) ∧
    ([4, 8, 16, 32, 60] : List Nat) =
      (List.range 5).map (fun k => backoff_sleep (k + 1)) ∧
    (∀ fn fn' : Nat → Except E A, (∀ i, i < 5 → fn i = fn' i) →
      with_backoff fn = with_backoff fn') := by
  refine ⟨rfl, by decide, ?_⟩
  intro fn fn' h
  exact backoff_run_congr fn fn' 4 0 (fun i _ h2 => h i (by omega))

theorem with_backoff_all_failures_witness :
    with_backoff (fun _ => Except.error 0) =
      ([4, 8, 16, 32, 60], (Except.error 0 : Except Nat Nat)) :=
  (with_backoff_all_failures 0).1

/-- C8: `load_state` returns the fresh default state (empty history, zeroed
daily/hourly counters with empty keys, no processed mentions, zero per-type
counters) both when the state file is absent (`none`) and when reading or
parsing it fails (`some none`); both branches are total, so neither
condition is fatal. -/
theorem load_state_defaults :
    load_state none =
      { history := [], daily := { date := "", posts := 0 },
        hourly := { key := "", posts := 0 }, processed_mentions := [],
        pertype := { post_img_gmgn_short := 0, post_gmgn_long := 0,
                     post_short_link := 0 } } ∧
    load_state (some none) = load_state none :=
  ⟨rfl, rfl⟩

/-- C1: refuted by the code. On a midday tick with `post_gmgn_long` already
at its cap of 1 and no links configured, `choose_action_with_caps` picks
`post_short_link`, and the no-url fallback in `do_one_action` switches the
action to `post_gmgn_long` without re-checking that counter against
`MAX_GMGN_LONG_PER_DAY`; the tick posts and leaves
`pertype["post_gmgn_long"] = 2`, above the cap. -/
theorem pertype_long_cap_exceeded :
    (do_one_action envDefault { stDefault with pertype := ⟨0, 1, 0⟩ }).1 =
      "posted" ∧
    (do_one_action envDefault
        { stDefault with pertype := ⟨0, 1, 0⟩ }).2.1.pertype.post_gmgn_long = 2 ∧
    MAX_GMGN_LONG_PER_DAY = 1 := by
  decide

/-- C10: for a timestamp whose hour is outside both the morning window
[7,11) and the evening window [19,23), `pick_gmgn_text` with `long = True`
returns `build_gm_short()` — a greeting from the fixed `GM_SHORT` pool, not
one of the long texts — and the result does not depend on the state at all,
so the 7-day anti-repetition filtering is bypassed. -/
theorem midday_long_text_is_short_greeting (env : Env) (s s' : BotState)
    (hm : ¬(7 ≤ env.nowHour ∧ env.nowHour < 11))
    (he : ¬(19 ≤ env.nowHour ∧ env.nowHour < 23)) :
    pick_gmgn_text env s true = build_gm_short env ∧
    pick_gmgn_text env s true ∈ GM_SHORT ∧
    pick_gmgn_text env s true ∉ GM_LONG ∧
    pick_gmgn_text env s true ∉ GN_LONG ∧
    pick_gmgn_text env s true = pick_gmgn_text env s' true := by
  have h1 : in_time_window env.nowHour ("morning") = false := by
    rw [show in_time_window env.nowHour ("morning") =
          decide (7 ≤ env.nowHour ∧ env.nowHour < 11) from rfl]
    exact decide_eq_false hm
  have h2 : in_time_window env.nowHour ("evening") = false := by
    rw [show in_time_window env.nowHour ("evening") =
          decide (19 ≤ env.nowHour ∧ env.nowHour < 23) from rfl]
    exact decide_eq_false he
  have hpick : ∀ t : BotState, pick_gmgn_text env t true = build_gm_short env := by
    intro t
    simp [pick_gmgn_text, h1, h2]
  have hmem : build_gm_short env ∈ GM_SHORT :=
    pyChoice_mem GM_SHORT env.gmIdx (by decide)
  have hnotgm : ∀ x ∈ GM_SHORT, x ∉ GM_LONG := by decide
  have hnotgn : ∀ x ∈ GM_SHORT, x ∉ GN_LONG := by decide
  refine ⟨hpick s, ?_, ?_, ?_, ?_⟩
  · rw [hpick s]; exact hmem
  · rw [hpick s]; exact hnotgm _ hmem
  · rw [hpick s]; exact hnotgn _ hmem
  · rw [hpick s, hpick s']

theorem midday_long_text_is_short_greeting_witness :
    pick_gmgn_text envDefault stDefault true = "GM ☀️" := by
  rw [(midday_long_text_is_short_greeting envDefault stDefault stDefault
        (by decide) (by decide)).1]
  decide

lemma tick_posts_step (env : Env) (t : BotState) :
    ((do_one_action env t).2.1.daily.posts = (tick_resets env t).daily.posts ∧
     (do_one_action env t).2.1.hourly.posts = (tick_resets env t).hourly.posts) ∨
    (can_post (tick_resets env t) = true ∧
     (do_one_action env t).2.1.daily.posts = (tick_resets env t).daily.posts + 1 ∧
     (do_one_action env t).2.1.hourly.posts = (tick_resets env t).hourly.posts + 1) := by
  rcases tick_cases env t with ⟨mid, h⟩ | h | h | ⟨hcp, a, tx, m, h⟩
  · left; rw [h]; exact ⟨rfl, rfl⟩
  · left; rw [h]; exact ⟨rfl, rfl⟩
  · left; rw [h]; exact ⟨rfl, rfl⟩
  · right; rw [h]; exact ⟨hcp, rfl, rfl⟩

lemma tick_posts_le (env : Env) (t : BotState)
    (hd : t.daily.posts ≤ MAX_POSTS_PER_DAY)
    (hh : t.hourly.posts ≤ MAX_POSTS_PER_HOUR) :
    (do_one_action env t).2.1.daily.posts ≤ MAX_POSTS_PER_DAY ∧
    (do_one_action env t).2.1.hourly.posts ≤ MAX_POSTS_PER_HOUR := by
  have hd2 := tick_resets_daily_posts_le env t
  have hh2 := tick_resets_hourly_posts_le env t
  simp only [MAX_POSTS_PER_DAY, MAX_POSTS_PER_HOUR] at hd hh ⊢
  rcases tick_posts_step env t with ⟨h1, h2⟩ | ⟨hcp, h1, h2⟩
  · constructor <;> omega
  · simp only [can_post, Bool.and_eq_true, decide_eq_true_eq,
      MAX_POSTS_PER_DAY, MAX_POSTS_PER_HOUR] at hcp
    constructor <;> omega

/-- C2: over every sequence of ticks from a state within the caps,
`daily.posts` never exceeds `MAX_POSTS_PER_DAY` and `hourly.posts` never
exceeds `MAX_POSTS_PER_HOUR`; moreover each tick increments each counter at
most once, and does so only when `can_post` held on the state left by the
start-of-tick resets. -/
theorem daily_hourly_caps (envs : List Env) (s : BotState)
    (hd : s.daily.posts ≤ MAX_POSTS_PER_DAY)
    (hh : s.hourly.posts ≤ MAX_POSTS_PER_HOUR) :
    ((run_ticks envs s).daily.posts ≤ MAX_POSTS_PER_DAY ∧
     (run_ticks envs s).hourly.posts ≤ MAX_POSTS_PER_HOUR) ∧
    ∀ (env : Env) (t : BotState),
      ((do_one_action env t).2.1.daily.posts = (tick_resets env t).daily.posts ∧
       (do_one_action env t).2.1.hourly.posts = (tick_resets env t).hourly.posts) ∨
      (can_post (tick_resets env t) = true ∧
       (do_one_action env t).2.1.daily.posts =
         (tick_resets env t).daily.posts + 1 ∧
       (do_one_action env t).2.1.hourly.posts =
         (tick_resets env t).hourly.posts + 1) := by
  refine ⟨?_, tick_posts_step⟩
  induction envs generalizing s with
  | nil => exact ⟨hd, hh⟩
  | cons e es ih =>
    have hstep := tick_posts_le e s hd hh
    exact ih _ hstep.1 hstep.2

theorem daily_hourly_caps_witness :
    (run_ticks [envDefault] stDefault).daily.posts ≤ MAX_POSTS_PER_DAY :=
  (daily_hourly_caps [envDefault] stDefault (by decide) (by decide)).1.1

set_option maxRecDepth 4000 in
lemma tick_lists_le (env : Env) (t : BotState)
    (hh : t.history.length ≤ 400)
    (hp : t.processed_mentions.length ≤ 500) :
    (do_one_action env t).2.1.history.length ≤ 400 ∧
    (do_one_action env t).2.1.processed_mentions.length ≤ 500 := by
  have h1 := tick_resets_history env t
  have h2 := tick_resets_processed env t
  rcases tick_cases env t with ⟨mid, h⟩ | h | h | ⟨hcp, a, tx, m, h⟩
  · rw [h]
    refine ⟨?_, pyLast_length_le _ _⟩
    show (tick_resets env t).history.length ≤ 400
    rw [h1]; exact hh
  · rw [h]; exact ⟨h1 ▸ hh, h2 ▸ hp⟩
  · rw [h]; exact ⟨h1 ▸ hh, h2 ▸ hp⟩
  · rw [h]
    refine ⟨pyLast_length_le _ _, ?_⟩
    show (tick_resets env t).processed_mentions.length ≤ 500
    rw [h2]; exact hp

set_option maxRecDepth 4000 in
/-- C9: over every sequence of ticks from a state within the list caps, the
history never exceeds 400 entries and the processed-mention list never
exceeds 500; each append keeps a suffix of the extended list of length
`min (old + 1) cap`, i.e. eviction on overflow is strictly oldest-first and
the retained entries are exactly the most recent ones in insertion order. -/
theorem bounded_history_and_mentions (envs : List Env) (s : BotState)
    (hh : s.history.length ≤ 400)
    (hp : s.processed_mentions.length ≤ 500) :
    ((run_ticks envs s).history.length ≤ 400 ∧
     (run_ticks envs s).processed_mentions.length ≤ 500) ∧
    (∀ (t : BotState) (txt : String) (media : Option String) (now : Int),
      (remember_post t txt media now).history.length =
        min (t.history.length + 1) 400 ∧
      (remember_post t txt media now).history.IsSuffix
        (t.history ++ [mk_hist_rec txt media now])) ∧
    (∀ (t : BotState) (mid : String),
      (engage_append t mid).processed_mentions.length =
        min (t.processed_mentions.length + 1) 500 ∧
      (engage_append t mid).processed_mentions.IsSuffix
        (t.processed_mentions ++ [mid])) := by
  refine ⟨?_, ?_, ?_⟩
  · induction envs generalizing s with
    | nil => exact ⟨hh, hp⟩
    | cons e es ih =>
      have hstep := tick_lists_le e s hh hp
      exact ih _ hstep.1 hstep.2
  · intro t txt media now
    constructor
    · show (pyLast 400 (t.history ++ [mk_hist_rec txt media now])).length = _
      rw [pyLast_length]; simp
    · exact pyLast_suffix _ _
  · intro t mid
    constructor
    · show (pyLast 500 (t.processed_mentions ++ [mid])).length = _
      rw [pyLast_length]; simp
    · exact pyLast_suffix _ _

theorem bounded_history_and_mentions_witness :
    (run_ticks [envDefault] stDefault).history.length ≤ 400 :=
  (bounded_history_and_mentions [envDefault] stDefault (by decide)
    (by decide)).1.1

/-- C4 (amended): when a tick ends with status `"post_failed"` the state is
exactly what the start-of-tick date/hour rollover resets left: no save event
is emitted, history and processed mentions are always untouched, and in
particular when the date and hour key of the tick match the persisted ones the
whole state is unchanged. -/
theorem post_failed_no_mutation (env : Env) (s : BotState)
    (h : (do_one_action env s).1 = "post_failed") :
    (do_one_action env s).2.1 = tick_resets env s ∧
    Ev.saved ∉ (do_one_action env s).2.2 ∧
    (do_one_action env s).2.1.history = s.history ∧
    (do_one_action env s).2.1.processed_mentions = s.processed_mentions ∧
    (s.daily.date = env.nowDate →
     s.hourly.key = hour_key env.nowDate env.nowHour →
     (do_one_action env s).2.1 = s) := by
  rcases tick_cases env s with ⟨mid, hq⟩ | hq | hq | ⟨hcp, a, t, m, hq⟩
  · rw [hq] at h; simp at h
  · rw [hq] at h; simp at h
  · rw [hq]
    refine ⟨rfl, by simp, tick_resets_history env s,
      tick_resets_processed env s, ?_⟩
    intro h1 h2
    exact tick_resets_of_match env s h1 h2
  · rw [hq] at h; simp at h

/-- Tick oracle with a failing submission and a configured link. -/
def env_c4w : Env :=
  { envDefault with
    submitOk := false
    linkPools := ["https://example.org"] }

theorem post_failed_no_mutation_witness :
    (do_one_action env_c4w stDefault).2.1 = stDefault := by
  exact (post_failed_no_mutation env_c4w stDefault
    (by decide)).2.2.2.2 (by decide) (by decide)

/-- Tick oracle for the C4 counterexample: a failing submission on a tick
whose local date has rolled over since the persisted `daily.date`. -/
def env_c4x : Env :=
  { env_c4w with nowDate := "2024-01-02" }

def st_c4x : BotState := { stDefault with daily := ⟨"2024-01-01", 3⟩ }

/-- C4: counterexample to the claim as stated — on a tick that crosses a
date boundary, the lazy daily reset zeroes the daily post counter even
though the selected post submission then fails, so the tick returns
`"post_failed"` with a changed daily counter (3 before, 0 after). -/
theorem post_failed_counters_changed :
    st_c4x.daily.posts = 3 ∧
    (do_one_action env_c4x st_c4x).1 = "post_failed" ∧
    (do_one_action env_c4x st_c4x).2.1.daily.posts = 0 := by
  decide

lemma perm_ne_nil {l l' : List String} (hperm : l.Perm l') (h : l' ≠ []) :
    l ≠ [] := by
  intro h0
  exact h (List.eq_nil_of_length_eq_zero (by
    rw [← hperm.length_eq, h0, List.length_nil]))

lemma pick_fresh_image_mem (env : Env) (s : BotState)
    (hperm : (env.shuffleImages env.imagePool).Perm env.imagePool)
    (img : String) (h : pick_fresh_image env s = some img) :
    img ∈ env.imagePool := by
  unfold pick_fresh_image at h
  by_cases he : env.imagePool.isEmpty
  · rw [if_pos he] at h; exact absurd h (by simp)
  · rw [if_neg he] at h
    simp only [] at h
    have hne : env.shuffleImages env.imagePool ≠ [] :=
      perm_ne_nil hperm (by simpa [List.isEmpty_iff] using he)
    cases hf : (env.shuffleImages env.imagePool).find? (fun img =>
        !recently_used_media s img env.nowUtc IMAGE_RECENCY_DAYS) with
    | some i =>
      rw [hf] at h
      simp only [Option.some.injEq] at h
      exact hperm.mem_iff.mp (h ▸ List.mem_of_find?_eq_some hf)
    | none =>
      rw [hf] at h
      simp only [Option.some.injEq] at h
      exact hperm.mem_iff.mp (h ▸ pyChoice_mem _ _ hne)

lemma pick_fresh_image_some (env : Env) (s : BotState)
    (hne : env.imagePool ≠ []) :
    ∃ img, pick_fresh_image env s = some img := by
  unfold pick_fresh_image
  rw [if_neg (by simpa [List.isEmpty_iff] using hne)]
  simp only []
  cases hf : (env.shuffleImages env.imagePool).find? (fun img =>
      !recently_used_media s img env.nowUtc IMAGE_RECENCY_DAYS) with
  | some i => exact ⟨i, rfl⟩
  | none => exact ⟨_, rfl⟩

lemma pick_fresh_image_fresh (env : Env) (s : BotState)
    (hperm : (env.shuffleImages env.imagePool).Perm env.imagePool)
    (hex : ∃ i ∈ env.imagePool,
      recently_used_media s i env.nowUtc IMAGE_RECENCY_DAYS = false)
    (img : String) (h : pick_fresh_image env s = some img) :
    recently_used_media s img env.nowUtc IMAGE_RECENCY_DAYS = false := by
  obtain ⟨i, hi, hfresh⟩ := hex
  have hne : env.imagePool ≠ [] := List.ne_nil_of_mem hi
  unfold pick_fresh_image at h
  rw [if_neg (by simpa [List.isEmpty_iff] using hne)] at h
  simp only [] at h
  cases hf : (env.shuffleImages env.imagePool).find? (fun img =>
      !recently_used_media s img env.nowUtc IMAGE_RECENCY_DAYS) with
  | some j =>
    rw [hf] at h
    simp only [Option.some.injEq] at h
    have := List.find?_some hf
    rw [← h]
    simpa using this
  | none =>
    exfalso
    have hall := List.find?_eq_none.mp hf i (hperm.mem_iff.mpr hi)
    simp [hfresh] at hall

/-- C6: `pick_fresh_image` returns `None` exactly on an empty image pool;
whenever some pool image is outside the 14-day recency window, the returned
image is itself outside that window (so a recently used image is never
returned while a fresh one exists); on a non-empty pool it always returns a
member of the full pool, which covers the all-recently-used fallback. -/
theorem image_pick_recency (env : Env) (s : BotState)
    (hperm : (env.shuffleImages env.imagePool).Perm env.imagePool) :
    (env.imagePool = [] → pick_fresh_image env s = none) ∧
    (∀ img, pick_fresh_image env s = some img → img ∈ env.imagePool) ∧
    ((∃ i ∈ env.imagePool,
        recently_used_media s i env.nowUtc IMAGE_RECENCY_DAYS = false) →
      ∀ img, pick_fresh_image env s = some img →
        recently_used_media s img env.nowUtc IMAGE_RECENCY_DAYS = false) ∧
    (env.imagePool ≠ [] →
      ∃ img, pick_fresh_image env s = some img ∧ img ∈ env.imagePool) := by
  refine ⟨?_, pick_fresh_image_mem env s hperm, ?_, ?_⟩
  · intro h0
    unfold pick_fresh_image
    rw [if_pos (by simp [h0])]
  · intro hex img h
    exact pick_fresh_image_fresh env s hperm hex img h
  · intro hne
    obtain ⟨img, h⟩ := pick_fresh_image_some env s hne
    exact ⟨img, h, pick_fresh_image_mem env s hperm img h⟩

theorem image_pick_recency_witness :
    pick_fresh_image envDefault stDefault = none :=
  (image_pick_recency envDefault stDefault (by decide)).1 (by decide)

/-- C7 (amended): on any tick whose fetched mention list, filtered against
`processed_mentions`, is non-empty and whose engagement succeeds, exactly
one engagement happens and exactly one identifier — one not currently in
`processed_mentions` — is appended (then truncated to the last 500), the
state is saved, the tick returns `"engaged"`, and no posting event occurs;
a mention identifier currently in `processed_mentions` is never the one
engaged. Because of the 500-entry truncation, an identifier can be evicted
and engaged again on a much later tick (see the companion counterexample). -/
theorem engagement_exactly_once (env : Env) (s : BotState)
    (hfetch : env.fetchOk = true)
    (hperm : (env.shuffleMentions
        (fetch_unprocessed_mentions env (tick_resets env s))).Perm
      (fetch_unprocessed_mentions env (tick_resets env s)))
    (hne : fetch_unprocessed_mentions env (tick_resets env s) ≠ [])
    (heng : env.engageKind.isSome = true) :
    ∃ mid, mid ∈ env.inbox ∧
      mid ∉ (tick_resets env s).processed_mentions ∧
      do_one_action env s =
        ("engaged", engage_append (tick_resets env s) mid,
         [Ev.engaged mid, Ev.saved]) := by
  obtain ⟨k, hk⟩ := Option.isSome_iff_exists.mp heng
  have hsne : env.shuffleMentions
      (fetch_unprocessed_mentions env (tick_resets env s)) ≠ [] :=
    perm_ne_nil hperm hne
  obtain ⟨item, rest, hcons⟩ := List.exists_cons_of_ne_nil hsne
  have hphase : engagement_phase env (tick_resets env s) =
      some (engage_append (tick_resets env s) item,
            [Ev.engaged item, Ev.saved]) := by
    unfold engagement_phase
    rw [if_pos hfetch]
    simp only []
    rw [hcons, hk]
  have hitem : item ∈ fetch_unprocessed_mentions env (tick_resets env s) :=
    hperm.mem_iff.mp (hcons ▸ List.mem_cons_self item rest)
  have hfil := List.mem_filter.mp hitem
  refine ⟨item, hfil.1, ?_, ?_⟩
  · intro hmem
    have hc := hfil.2
    simp only [Bool.not_eq_true'] at hc
    simp at hc
    exact hc hmem
  · rw [do_one_action_eq, hphase]

/-- Tick oracle with three unprocessed inbox mentions and a succeeding
engagement. -/
def env_c7w : Env :=
  { envDefault with
    fetchOk := true
    inbox := ["m1", "m2", "m3"]
    engageKind := some ("upvote") }

theorem engagement_exactly_once_witness :
    (do_one_action env_c7w stDefault).1 = "engaged" := by
  obtain ⟨mid, _, _, hdo⟩ := engagement_exactly_once env_c7w stDefault
    (by decide) (by decide) (by decide) (by decide)
  rw [hdo]

/-- A state whose processed-mention list is full (500 entries) and starts
with the identifier `"t"`. -/
def st_c7 : BotState :=
  { stDefault with processed_mentions := "t" :: List.replicate 499 ("f") }

def env_c7a : Env := { env_c7w with inbox := ["x"] }

def env_c7b : Env := { env_c7w with inbox := ["t"] }

set_option maxRecDepth 100000 in
/-- C7: counterexample to "never engaged again on any later tick" as
stated — `"t"` is in `processed_mentions`, but after one further engagement
the 500-entry truncation evicts it, and a later tick engages the same
mention `"t"` again. -/
theorem mention_reengaged_after_eviction :
    "t" ∈ st_c7.processed_mentions ∧
    Ev.engaged ("t") ∈
      (do_one_action env_c7b (do_one_action env_c7a st_c7).2.1).2.2 ∧
    (do_one_action env_c7b (do_one_action env_c7a st_c7).2.1).1 =
      "engaged" := by
  decide

lemma is_quiet_hours_false_of (h : Nat) (h1 : 7 ≤ h) (h2 : h < 23) :
    is_quiet_hours h = false := by
  rw [show is_quiet_hours h = (decide (23 ≤ h) || decide (h < 7)) from rfl]
  simp only [Bool.or_eq_false_iff, decide_eq_false_iff_not]
  omega

lemma pick_link_short_some (env : Env) (s : BotState)
    (hne : env.linkPools ≠ [])
    (hperm : (env.shuffleLinks env.linkPools).Perm env.linkPools) :
    ∃ u, pick_link_short env s = some u := by
  unfold pick_link_short
  simp only []
  cases hf : (env.shuffleLinks env.linkPools).find? (fun u =>
      !recently_used_text s u env.nowUtc TEXT_REPEAT_DAYS) with
  | some u => exact ⟨u, rfl⟩
  | none =>
    obtain ⟨u, rest, hcons⟩ := List.exists_cons_of_ne_nil (perm_ne_nil hperm hne)
    exact ⟨u, by simp [hcons]⟩

/-- C5: in the morning window the scheduler selects the image post exactly
when its daily count is 0; if a not-recently-used image exists the image
post is performed; if no image can be produced (empty pool) the action
downgrades strictly forward — link post when under its cap, else long post
when under its cap, else the tick skips — and the image kind is never
reconsidered (no image-submission event occurs on the downgrade path). -/
theorem morning_selection_and_downgrade (env : Env) (s : BotState)
    (h7 : 7 ≤ env.nowHour) (h11 : env.nowHour < 11)
    (hcp : can_post s = true)
    (hsubs : env.subs ≠ [])
    (hok : env.submitOk = true)
    (hpl : (env.shuffleLinks env.linkPools).Perm env.linkPools)
    (hlinks : env.linkPools ≠ [])
    (himg0 : s.pertype.post_img_gmgn_short = 0) :
    (∀ p : PerType,
      choose_action_with_caps env.nowHour p = some PAction.post_img_gmgn_short ↔
        p.post_img_gmgn_short = 0) ∧
    ((∃ i ∈ env.imagePool,
        recently_used_media s i env.nowUtc IMAGE_RECENCY_DAYS = false) →
      (posting_phase env s).1 = "posted" ∧
      Ev.submitted PAction.post_img_gmgn_short ∈ (posting_phase env s).2.2) ∧
    (env.imagePool = [] →
      Ev.submitted PAction.post_img_gmgn_short ∉ (posting_phase env s).2.2 ∧
      (s.pertype.post_short_link < MAX_SHORT_LINK_PER_DAY →
        (posting_phase env s).1 = "posted" ∧
        Ev.submitted PAction.post_short_link ∈ (posting_phase env s).2.2) ∧
      (MAX_SHORT_LINK_PER_DAY ≤ s.pertype.post_short_link →
       s.pertype.post_gmgn_long < MAX_GMGN_LONG_PER_DAY →
        (posting_phase env s).1 = "posted" ∧
        Ev.submitted PAction.post_gmgn_long ∈ (posting_phase env s).2.2) ∧
      (MAX_SHORT_LINK_PER_DAY ≤ s.pertype.post_short_link →
       MAX_GMGN_LONG_PER_DAY ≤ s.pertype.post_gmgn_long →
        posting_phase env s = ("skip", s, []))) := by
  have hguard : (!can_post s || is_quiet_hours env.nowHour) = false := by
    rw [hcp, is_quiet_hours_false_of env.nowHour h7 (by omega)]
    rfl
  have hsubs' : env.subs.isEmpty = false := by
    simp [List.isEmpty_iff, hsubs]
  have hcond : s.pertype.post_img_gmgn_short < MAX_IMG_GMGN_PER_DAY ∧
      s.pertype.post_img_gmgn_short = 0 := by
    rw [himg0]; exact ⟨by decide, rfl⟩
  have hchoose : choose_action_with_caps env.nowHour s.pertype =
      some PAction.post_img_gmgn_short := by
    unfold choose_action_with_caps
    rw [if_pos ⟨h7, h11⟩, if_pos hcond]
  refine ⟨?_, ?_, ?_⟩
  · intro p
    unfold choose_action_with_caps
    rw [if_pos ⟨h7, h11⟩]
    by_cases h0 : p.post_img_gmgn_short = 0
    · rw [if_pos ⟨by rw [h0]; decide, h0⟩]
      simp [h0]
    · rw [if_neg (fun hc => h0 hc.2)]
      constructor
      · intro hch
        split at hch
        · exact absurd hch (by simp)
        · split at hch
          · exact absurd hch (by simp)
          · exact absurd hch (by simp)
      · intro hc
        exact absurd hc h0
  · intro hex
    have hne : env.imagePool ≠ [] := by
      obtain ⟨i, hi, _⟩ := hex
      exact List.ne_nil_of_mem hi
    obtain ⟨img, hpick⟩ := pick_fresh_image_some env s hne
    constructor
    · simp [posting_phase, prepare, execute, hguard, hchoose, hpick,
        hsubs', hok]
    · simp [posting_phase, prepare, execute, hguard, hchoose, hpick,
        hsubs', hok]
  · intro hpool
    have hpick : pick_fresh_image env s = none := by
      simp [pick_fresh_image, hpool]
    rcases Nat.lt_or_ge s.pertype.post_short_link MAX_SHORT_LINK_PER_DAY
      with hlink | hlink
    · obtain ⟨u, hurl⟩ := pick_link_short_some env s hlinks hpl
      have h1 : (posting_phase env s).1 = "posted" := by
        simp [posting_phase, prepare, execute, hguard, hchoose, hpick,
          hsubs', hok, hurl, hlink, not_le.mpr hlink]
      have h2 : (posting_phase env s).2.2 =
          [Ev.submitted PAction.post_short_link, Ev.saved] := by
        simp [posting_phase, prepare, execute, hguard, hchoose, hpick,
          hsubs', hok, hurl, hlink, not_le.mpr hlink]
      refine ⟨by rw [h2]; simp, fun _ => ⟨h1, by rw [h2]; simp⟩,
        fun hge _ => absurd hlink (not_lt.mpr hge), fun hge _ =>
        absurd hlink (not_lt.mpr hge)⟩
    · rcases Nat.lt_or_ge s.pertype.post_gmgn_long MAX_GMGN_LONG_PER_DAY
        with hlong | hlong
      · have h1 : (posting_phase env s).1 = "posted" := by
          simp [posting_phase, prepare, execute, hguard, hchoose, hpick,
            hsubs', hok, hlong, not_lt.mpr hlink, not_le.mpr hlong]
        have h2 : (posting_phase env s).2.2 =
            [Ev.submitted PAction.post_gmgn_long, Ev.saved] := by
          simp [posting_phase, prepare, execute, hguard, hchoose, hpick,
            hsubs', hok, hlong, not_lt.mpr hlink, not_le.mpr hlong]
        refine ⟨by rw [h2]; simp,
          fun hlt => absurd hlt (not_lt.mpr hlink),
          fun _ _ => ⟨h1, by rw [h2]; simp⟩,
          fun _ hge => absurd hlong (not_lt.mpr hge)⟩
      · have hpost : posting_phase env s = ("skip", s, []) := by
          simp [posting_phase, prepare, execute, hguard, hchoose, hpick,
            hsubs', hok, not_lt.mpr hlink, not_lt.mpr hlong]
        refine ⟨by rw [hpost]; simp,
          fun hlt => absurd hlt (not_lt.mpr hlink),
          fun _ hlt => absurd hlt (not_lt.mpr hlong),
          fun _ _ => hpost⟩

/-- Morning tick oracle with one fresh image and one configured link. -/
def env_c5w : Env :=
  { envDefault with
    nowHour := 8
    imagePool := ["a.png"]
    linkPools := ["https://example.org"] }

theorem morning_selection_and_downgrade_witness :
    (posting_phase env_c5w stDefault).1 = "posted" :=
  ((morning_selection_and_downgrade env_c5w stDefault (by decide) (by decide)
      (by decide) (by decide) (by decide) (by decide) (by decide)
      (by decide)).2.1 ⟨"a.png", by decide, by decide⟩).1

end RedditBotSafe
